import Mathlib

/-!
Verification of the trading-dashboard real-time core: a shallow embedding of
`src/data_structures.rs`, `src/state.rs` and `src/workers/websocket_handler.rs`.

Modelling conventions:
* `f64` prices are embedded as `ℚ`.  Every price equation checked here is the
  very expression the source assigns (e.g. `pnl = (last - avg) * qty`), so its
  truth value is representation independent; no rounding behaviour is relied on.
* The wire-level `f32` price of the tick decoder is kept as its 32-bit pattern
  (`Nat < 2^32`); `f32Val` gives the IEEE-754 value of a finite pattern as `ℚ`.
  The source widens the decoded `f32` to `f64`, which is value-preserving.
* `u32`/`u64` values are `Nat`; `% 2^64` is applied exactly where the source's
  `u64` arithmetic can wrap (the backoff multiplication).  Counters such as
  `ticks_processed` are incremented only once per processed tick and are kept
  as plain `Nat`.
* `DashMap` is embedded as an association list with at most one binding per
  key: `dmLookup` is `get`, `dmInsert` is `insert` (replace in place or append),
  `dmLen` is `len()`.  `chrono::DateTime<Utc>` is its nanosecond timestamp
  (`Int`).  Channels, the UI state and the `Config`/auth fields of `AppState`
  are I/O surface not touched by the event-application logic modelled here.
-/

/-- DashMap lookup (`map.get(&k)`), modelled on an association list. -/
def dmLookup {κ α : Type} [DecidableEq κ] : List (κ × α) → κ → Option α
  | [], _ => none
  | kv :: rest, k => if kv.1 = k then some kv.2 else dmLookup rest k

/-- DashMap upsert (`map.insert(k, v)`): replace the binding in place if the
key is present, otherwise append a fresh binding. -/
def dmInsert {κ α : Type} [DecidableEq κ] : List (κ × α) → κ → α → List (κ × α)
  | [], k, v => [(k, v)]
  | kv :: rest, k, v => if kv.1 = k then (k, v) :: rest else kv :: dmInsert rest k v

/-- DashMap size (`map.len()`). -/
def dmLen {κ α : Type} (m : List (κ × α)) : Nat := m.length


/-! ## `src/data_structures.rs` -/

/-- `Position` (data_structures.rs).  Prices as `ℚ`, quantities as `Int`. -/
structure Position where
  instrument_token : Nat
  tradingsymbol : String
  exchange : String
  product : String
  quantity : Int
  average_price : ℚ
  last_price : ℚ
  close_price : ℚ
  pnl : ℚ
  unrealized_pnl : ℚ
  realized_pnl : ℚ
  multiplier : ℚ
  overnight_quantity : Int
  day_quantity : Int
deriving DecidableEq

/-- `Position::calculate_pnl`: recompute `pnl` and `unrealized_pnl` — but only
when `quantity != 0`; a zero-quantity position is left untouched. -/
def Position.calculate_pnl (p : Position) : Position :=
  if p.quantity ≠ 0 then
    { p with
      pnl := (p.last_price - p.average_price) * (p.quantity : ℚ),
      unrealized_pnl := (p.last_price - p.close_price) * (p.quantity : ℚ) }
  else p

/-- `Position::update_last_price`: set `last_price`, then `calculate_pnl`. -/
def Position.update_last_price (p : Position) (new_price : ℚ) : Position :=
  Position.calculate_pnl { p with last_price := new_price }

/-- `OrderStatus` (data_structures.rs). -/
inductive OrderStatus where
  | Open
  | Complete
  | Cancelled
  | Rejected
  | Trigger
  | Modified
deriving DecidableEq

/-- `Order` (data_structures.rs); timestamps as nanosecond `Int`s. -/
structure Order where
  order_id : String
  parent_order_id : Option String
  exchange_order_id : String
  placed_by : String
  variety : String
  status : OrderStatus
  tradingsymbol : String
  exchange : String
  instrument_token : Nat
  transaction_type : String
  order_type : String
  product : String
  validity : String
  price : ℚ
  quantity : Int
  pending_quantity : Int
  filled_quantity : Int
  disclosed_quantity : Int
  trigger_price : ℚ
  average_price : ℚ
  order_timestamp : Int
  exchange_timestamp : Option Int
  status_message : Option String
  tag : Option String
deriving DecidableEq

/-- `OHLC` (data_structures.rs); the source field `open` is a Lean keyword and
is embedded as `open_px`. -/
structure OHLC where
  open_px : ℚ
  high : ℚ
  low : ℚ
  close : ℚ
deriving DecidableEq

/-- `TickData` (data_structures.rs). -/
structure TickData where
  instrument_token : Nat
  last_price : ℚ
  last_quantity : Nat
  average_price : ℚ
  volume : Nat
  buy_quantity : Nat
  sell_quantity : Nat
  ohlc : OHLC
  timestamp_nanos : Int
deriving DecidableEq

/-- `LogLevel` (data_structures.rs). -/
inductive LogLevel where
  | Info
  | Warning
  | Error
  | Debug
deriving DecidableEq

/-- `LogEntry` (data_structures.rs); `timestamp` is `Utc::now()` at creation,
passed in explicitly as `now`. -/
structure LogEntry where
  timestamp : Int
  level : LogLevel
  message : String
  module : Option String
deriving DecidableEq

/-- `LogEntry::new` with the clock reading made explicit. -/
def LogEntry.new (now : Int) (level : LogLevel) (message : String)
    (module : Option String) : LogEntry :=
  { timestamp := now, level := level, message := message, module := module }

/-- `UserProfile` (data_structures.rs). -/
structure UserProfile where
  user_id : String
  user_name : String
  email : String
  user_type : String
  broker : String
  exchanges : List String
  products : List String
  order_types : List String
deriving DecidableEq

/-- `Instrument` (data_structures.rs). -/
structure Instrument where
  instrument_token : Nat
  exchange_token : Nat
  tradingsymbol : String
  name : String
  last_price : ℚ
  expiry : Option String
  strike : Option ℚ
  tick_size : ℚ
  lot_size : Nat
  instrument_type : String
  segment : String
  exchange : String
deriving DecidableEq

/-! ## `src/state.rs` -/

/-- `ZerodhaConfig` (state.rs). -/
structure ZerodhaConfig where
  api_key : String
  api_secret : String
  access_token : String
deriving DecidableEq

/-- `AppConfig` (state.rs); `websocket_reconnect_delay_ms : u64`,
`max_reconnect_attempts : u32`. -/
structure AppConfig where
  log_level : String
  websocket_reconnect_delay_ms : Nat
  max_reconnect_attempts : Nat
  tick_buffer_size : Nat
deriving DecidableEq

/-- `Config` (state.rs). -/
structure Config where
  zerodha : ZerodhaConfig
  app : AppConfig
deriving DecidableEq

/-- `AppEvent` (state.rs).  `TickUpdate.timestamp` is the `DateTime<Utc>`
carried by the event, as nanoseconds. -/
inductive AppEvent where
  | PositionsUpdated (positions : List Position)
  | OrdersUpdated (orders : List Order)
  | UserProfileUpdated (profile : UserProfile)
  | InstrumentsUpdated (instruments : List Instrument)
  | TickUpdate (instrument_token : Nat) (last_price : ℚ) (volume : Nat) (timestamp : Int)
  | WebSocketConnected
  | WebSocketDisconnected
  | WebSocketReconnecting (attempt : Nat)
  | OrderPlaced (order_id : String)
  | OrderModified (order_id : String)
  | OrderCancelled (order_id : String)
  | OrderFilled (order_id : String) (fill_price : ℚ) (fill_quantity : Int)
  | Notification (level : LogLevel) (message : String) (module : Option String)
  | Error (error : String) (module : Option String)
deriving DecidableEq

/-- Constructor name of an event, standing in for Rust's `{:?}` rendering in
the catch-all log line of `handle_event` (no claim inspects log text). -/
def AppEvent.variantName : AppEvent → String
  | .PositionsUpdated _ => "PositionsUpdated"
  | .OrdersUpdated _ => "OrdersUpdated"
  | .UserProfileUpdated _ => "UserProfileUpdated"
  | .InstrumentsUpdated _ => "InstrumentsUpdated"
  | .TickUpdate _ _ _ _ => "TickUpdate"
  | .WebSocketConnected => "WebSocketConnected"
  | .WebSocketDisconnected => "WebSocketDisconnected"
  | .WebSocketReconnecting _ => "WebSocketReconnecting"
  | .OrderPlaced _ => "OrderPlaced"
  | .OrderModified _ => "OrderModified"
  | .OrderCancelled _ => "OrderCancelled"
  | .OrderFilled _ _ _ => "OrderFilled"
  | .Notification _ _ _ => "Notification"
  | .Error _ _ => "Error"

/-- `PerformanceMetrics` (state.rs). -/
structure PerformanceMetrics where
  ticks_processed : Nat
  orders_processed : Nat
  websocket_reconnections : Nat
  last_tick_timestamp : Option Int
  average_tick_latency_ms : ℚ
deriving DecidableEq

/-- `PerformanceMetrics::default()`. -/
def PerformanceMetrics.default : PerformanceMetrics :=
  { ticks_processed := 0, orders_processed := 0, websocket_reconnections := 0,
    last_tick_timestamp := none, average_tick_latency_ms := 0 }

/-- `AppState` (state.rs), restricted to the data the event-application logic
reads or writes: the four concurrent maps, the user profile, the log vector
and the metrics record.  `config`, `auth_state`, `ui_input` and the two
channel endpoints are never touched by `handle_event`/`add_log` and are
omitted. -/
structure AppState where
  positions : List (Nat × Position)
  orders : List (String × Order)
  instruments : List (Nat × Instrument)
  user_profile : Option UserProfile
  tick_data : List (Nat × TickData)
  logs : List LogEntry
  metrics : PerformanceMetrics
deriving DecidableEq

/-- The log-trimming core of `AppState::add_log` (state.rs lines 259-270):
`if logs.len() >= 10000 { logs.drain(0..1000); } logs.push(entry)`. -/
def add_log_list (logs : List LogEntry) (entry : LogEntry) : List LogEntry :=
  if logs.length ≥ 10000 then logs.drop 1000 ++ [entry] else logs ++ [entry]

/-- `AppState::add_log`, with the `Utc::now()` reading passed in as `now`. -/
def AppState.add_log (s : AppState) (now : Int) (level : LogLevel) (message : String)
    (module : Option String) : AppState :=
  { s with logs := add_log_list s.logs (LogEntry.new now level message module) }

/-- `AppState::update_position_price` (state.rs lines 272-277): if a position
is stored under the token, mutate it in place via `update_last_price`. -/
def AppState.update_position_price (s : AppState) (instrument_token : Nat)
    (last_price : ℚ) : AppState :=
  match dmLookup s.positions instrument_token with
  | some p =>
      { s with positions :=
          dmInsert s.positions instrument_token (p.update_last_price last_price) }
  | none => s

/-- `AppState::handle_event` (state.rs lines 341-431), with the clock made
explicit for log timestamps.  Faithful to the source branch by branch; the
trailing catch-all logs the unhandled event at Debug level. -/
def AppState.handle_event (s : AppState) (now : Int) (event : AppEvent) : AppState :=
  match event with
  | .PositionsUpdated positions =>
      let posMap := positions.foldl (fun m p => dmInsert m p.instrument_token p) []
      let s1 := { s with positions := posMap }
      s1.add_log now .Info
        ("Updated " ++ toString (dmLen posMap) ++ " positions") (some "positions")
  | .OrdersUpdated orders =>
      let ordMap := orders.foldl (fun m o => dmInsert m o.order_id o) s.orders
      let s1 := { s with orders := ordMap }
      s1.add_log now .Info
        ("Updated orders, total: " ++ toString (dmLen ordMap)) (some "orders")
  | .TickUpdate instrument_token last_price volume timestamp =>
      let s1 := s.update_position_price instrument_token last_price
      let s2 :=
        match dmLookup s1.tick_data instrument_token with
        | some td =>
            let td' : TickData :=
              { td with last_price := last_price, volume := volume,
                        timestamp_nanos := timestamp }
            { s1 with tick_data := dmInsert s1.tick_data instrument_token td' }
        | none =>
            let td' : TickData :=
              { instrument_token := instrument_token
                last_price := last_price
                last_quantity := 0
                average_price := last_price
                volume := volume
                buy_quantity := 0
                sell_quantity := 0
                ohlc := { open_px := last_price, high := last_price,
                          low := last_price, close := last_price }
                timestamp_nanos := timestamp }
            { s1 with tick_data := dmInsert s1.tick_data instrument_token td' }
      { s2 with metrics :=
          { s2.metrics with
            ticks_processed := s2.metrics.ticks_processed + 1,
            last_tick_timestamp := some timestamp } }
  | .Notification level message module => s.add_log now level message module
  | .Error error module => s.add_log now .Error error module
  | other =>
      s.add_log now .Debug
        ("Unhandled event: " ++ other.variantName) (some "state")

/-! ## `src/workers/websocket_handler.rs` -/

/-- `u32::from_be_bytes([b0,b1,b2,b3])`. -/
def u32_from_be_bytes (b0 b1 b2 b3 : Nat) : Nat :=
  ((b0 * 256 + b1) * 256 + b2) * 256 + b3

/-- `u64::from_be_bytes([b0,...,b7])`. -/
def u64_from_be_bytes (b0 b1 b2 b3 b4 b5 b6 b7 : Nat) : Nat :=
  ((((((b0 * 256 + b1) * 256 + b2) * 256 + b3) * 256 + b4) * 256 + b5) * 256 + b6)
    * 256 + b7

/-- Payload of the `AppEvent::TickUpdate` the decoder emits.  The price is
kept as the 32-bit pattern read from the wire; the source converts it with
`f32::from_bits(..) as f64`, a value-preserving widening. -/
structure TickEvent where
  instrument_token : Nat
  last_price_bits : Nat
  volume : Nat
deriving DecidableEq

/-- `WebSocketHandler::process_tick_data` (websocket_handler.rs lines
352-387), as the pure frame → optional-event function it implements: frames
shorter than 8 bytes yield `Ok` with no event; otherwise bytes 0-3 are the
big-endian instrument token, bytes 4-7 the price bits, bytes 8-15 the volume
when present (else 0).  The `Err` side of the source's `anyhow::Result` is
only reachable from the channel send, outside the decoder; indexing is
`getD _ 0`, with every read guarded by the length checks. -/
def process_tick_data (data : List Nat) : Except String (Option TickEvent) :=
  if data.length < 8 then
    .ok none
  else
    let instrument_token :=
      u32_from_be_bytes (data.getD 0 0) (data.getD 1 0) (data.getD 2 0) (data.getD 3 0)
    let last_price_bits :=
      u32_from_be_bytes (data.getD 4 0) (data.getD 5 0) (data.getD 6 0) (data.getD 7 0)
    let volume :=
      if data.length ≥ 16 then
        u64_from_be_bytes (data.getD 8 0) (data.getD 9 0) (data.getD 10 0)
          (data.getD 11 0) (data.getD 12 0) (data.getD 13 0) (data.getD 14 0)
          (data.getD 15 0)
      else 0
    .ok (some { instrument_token := instrument_token,
                last_price_bits := last_price_bits, volume := volume })

/-- Big-endian encoding of `(instrument_id, price_bits, volume)` into the
fixed 16-byte layout the decoder reads. -/
def encode_tick (instrument_id price_bits volume : Nat) : List Nat :=
  [instrument_id / 2 ^ 24 % 256, instrument_id / 2 ^ 16 % 256,
   instrument_id / 2 ^ 8 % 256, instrument_id % 256,
   price_bits / 2 ^ 24 % 256, price_bits / 2 ^ 16 % 256,
   price_bits / 2 ^ 8 % 256, price_bits % 256,
   volume / 2 ^ 56 % 256, volume / 2 ^ 48 % 256, volume / 2 ^ 40 % 256,
   volume / 2 ^ 32 % 256, volume / 2 ^ 24 % 256, volume / 2 ^ 16 % 256,
   volume / 2 ^ 8 % 256, volume % 256]

/-- The first eight bytes of `encode_tick`: a frame with no volume field. -/
def encode_tick8 (instrument_id price_bits : Nat) : List Nat :=
  [instrument_id / 2 ^ 24 % 256, instrument_id / 2 ^ 16 % 256,
   instrument_id / 2 ^ 8 % 256, instrument_id % 256,
   price_bits / 2 ^ 24 % 256, price_bits / 2 ^ 16 % 256,
   price_bits / 2 ^ 8 % 256, price_bits % 256]

/-- Value of a finite IEEE-754 binary32 pattern, as a rational: sign bit,
8-bit exponent, 23-bit mantissa; exponent 0 is subnormal.  (Patterns with
exponent 255 encode infinities/NaNs and have no rational value; this
function is only applied to finite patterns.) -/
def f32Val (bits : Nat) : ℚ :=
  let s : Nat := bits / 2 ^ 31 % 2
  let e : Nat := bits / 2 ^ 23 % 2 ^ 8
  let m : Nat := bits % 2 ^ 23
  let sgn : ℚ := if s = 1 then -1 else 1
  if e = 0 then
    sgn * (m : ℚ) / 2 ^ 149
  else
    sgn * ((2 ^ 23 + m : Nat) : ℚ) * 2 ^ e / 2 ^ 150

/-- `WebSocketHandler::handle_subscribe` (lines 286-306), acting on the
subscription vector: push each requested token not already present. -/
def handle_subscribe (subscribed : List Nat) (instrument_tokens : List Nat) : List Nat :=
  instrument_tokens.foldl
    (fun tokens token => if token ∈ tokens then tokens else tokens ++ [token])
    subscribed

/-- `WebSocketHandler::handle_unsubscribe` (lines 308-320):
`tokens.retain(|t| !instrument_tokens.contains(t))`. -/
def handle_unsubscribe (subscribed : List Nat) (instrument_tokens : List Nat) : List Nat :=
  subscribed.filter (fun token => ¬ token ∈ instrument_tokens)

/-- The placeholder access token recognised by `WebSocketHandler::new`. -/
def placeholderToken : String := "your_access_token_here"

/-- The mutable state of `WebSocketHandler` (the channel handle and `Config`
are carried separately where needed). -/
structure WebSocketHandler where
  access_token : Option String
  subscribed_tokens : List Nat
  reconnect_attempts : Nat
  is_connected : Bool
deriving DecidableEq

/-- `WebSocketHandler::new` (lines 27-46): the configured token is stored
only when it is neither the placeholder string nor empty. -/
def WebSocketHandler.new (config : Config) : WebSocketHandler :=
  let access_token :=
    if config.zerodha.access_token ≠ placeholderToken
        ∧ config.zerodha.access_token ≠ "" then
      some config.zerodha.access_token
    else none
  { access_token := access_token, subscribed_tokens := [],
    reconnect_attempts := 0, is_connected := false }

/-- Observable actions of one iteration of the `run` loop. -/
inductive WsAction where
  | connectAttempt (token : String)
  | emitError (message : String)
  | emitReconnecting (attempt : Nat)
  | sleepMs (ms : Nat)
deriving DecidableEq

/-- The un-jittered backoff delay of `handle_reconnection` (line 429):
`base_delay * 2_u64.pow(attempts.min(5))`, with `u64` wrap-around made
explicit. -/
def reconnectDelayMs (cfg : Config) (attempts : Nat) : Nat :=
  cfg.app.websocket_reconnect_delay_ms * 2 ^ min attempts 5 % 2 ^ 64

/-- Exclusive upper bound of the jitter drawn at line 430:
`fastrand::u64(0..delay / 4)`. -/
def jitterUpperBound (cfg : Config) (attempts : Nat) : Nat :=
  reconnectDelayMs cfg attempts / 4

/-- `WebSocketHandler::handle_reconnection` (lines 410-443) on the attempt
counter, with the random jitter draw passed in: increments the counter; past
the configured maximum it only emits the fatal error and returns (no sleep);
otherwise it emits `WebSocketReconnecting` and sleeps the jittered delay. -/
def handle_reconnection (cfg : Config) (attempts : Nat) (jitter : Nat) :
    Nat × List WsAction :=
  let attempts' := attempts + 1
  if attempts' > cfg.app.max_reconnect_attempts then
    (attempts', [WsAction.emitError "Max reconnection attempts reached"])
  else
    let delay := reconnectDelayMs cfg attempts'
    let total_delay := (delay + jitter) % 2 ^ 64
    (attempts',
      [WsAction.emitReconnecting attempts', WsAction.sleepMs total_delay])

/-- Outcome of one `connect_and_process` call, abstracting its I/O:
`failBeforeConnect` — the REST token check or the websocket handshake failed
(`Err` before `reconnect_attempts` is reset); `failAfterConnect` — the
handshake succeeded (counter reset to 0) and the stream later returned an
error (`Err`); `gracefulClose` — the stream ended without error (`Ok`). -/
inductive ConnectOutcome where
  | failBeforeConnect
  | failAfterConnect
  | gracefulClose
deriving DecidableEq

/-- Loop state of `WebSocketHandler::run`: the shared token cell and the
attempt counter. -/
structure WsLoopState where
  access_token : Option String
  reconnect_attempts : Nat
deriving DecidableEq

/-- Whether the `run` loop continues after an iteration. -/
inductive RunResult where
  | next (s : WsLoopState)
  | halt (s : WsLoopState)
deriving DecidableEq

/-- One iteration of the `loop` in `WebSocketHandler::run` (lines 71-93):
with no token it sleeps 100 ms and polls again; with a token it always calls
`connect_and_process` (a connection attempt), and on `Err` it reports the
error and runs `handle_reconnection` — after which the loop unconditionally
continues; only a graceful close (`Ok`) breaks the loop. -/
def run_iteration (cfg : Config) (s : WsLoopState) (outcome : ConnectOutcome)
    (jitter : Nat) : RunResult × List WsAction :=
  match s.access_token with
  | none => (.next s, [WsAction.sleepMs 100])
  | some token =>
    match outcome with
    | .gracefulClose =>
        (.halt { s with reconnect_attempts := 0 }, [WsAction.connectAttempt token])
    | .failBeforeConnect =>
        let r := handle_reconnection cfg s.reconnect_attempts jitter
        (.next { s with reconnect_attempts := r.1 },
          WsAction.connectAttempt token
            :: WsAction.emitError "WebSocket connection error" :: r.2)
    | .failAfterConnect =>
        let r := handle_reconnection cfg 0 jitter
        (.next { s with reconnect_attempts := r.1 },
          WsAction.connectAttempt token
            :: WsAction.emitError "WebSocket connection error" :: r.2)

/-- A `Config` with the given backoff base delay and maximum reconnect
attempts (the other fields are irrelevant to the reconnect logic). -/
def cfgWith (base maxAttempts : Nat) : Config :=
  { zerodha := { api_key := "k", api_secret := "s", access_token := "t" },
    app := { log_level := "info", websocket_reconnect_delay_ms := base,
             max_reconnect_attempts := maxAttempts, tick_buffer_size := 1000 } }

/-- The position the claim expects to find stored for token `t` after a
`PositionsUpdated` event: the last position in the event carrying that
instrument token (stated from the spec's "exactly the positions carried by
the event, keyed by instrument token"). -/
def lastPositionWithToken (ps : List Position) (t : Nat) : Option Position :=
  ps.foldl (fun acc p => if p.instrument_token = t then some p else acc) none

/-- Concrete tick entry used by the C10 witness. -/
def tdFixture : TickData :=
  { instrument_token := 1, last_price := 99, last_quantity := 4,
    average_price := 98, volume := 10, buy_quantity := 2, sell_quantity := 3,
    ohlc := { open_px := 97, high := 100, low := 96, close := 95 },
    timestamp_nanos := 5 }

/-- Concrete state used by the C10 witness: one tick entry for token 1, no
positions. -/
def stateFixture : AppState :=
  { positions := [], orders := [], instruments := [], user_profile := none,
    tick_data := [(1, tdFixture)], logs := [], metrics := PerformanceMetrics.default }

/-! ## Helper lemmas -/

theorem dmLookup_insert_self {κ α : Type} [DecidableEq κ] (m : List (κ × α)) (k : κ) (v : α) :
    dmLookup (dmInsert m k v) k = some v := by
  induction m with
  | nil => simp [dmInsert, dmLookup]
  | cons kv rest ih =>
    by_cases h : kv.1 = k
    · simp [dmInsert, dmLookup, h]
    · simp [dmInsert, dmLookup, h, ih]

theorem dmLookup_insert_ne {κ α : Type} [DecidableEq κ] (m : List (κ × α)) (k k' : κ) (v : α)
    (h : k' ≠ k) : dmLookup (dmInsert m k v) k' = dmLookup m k' := by
  induction m with
  | nil => simp [dmInsert, dmLookup, Ne.symm h]
  | cons kv rest ih =>
    by_cases hk : kv.1 = k
    · simp [dmInsert, dmLookup, hk, Ne.symm h]
    · simp [dmInsert, dmLookup, hk, ih]


theorem u32_from_be_bytes_round (n : Nat) (h : n < 2 ^ 32) :
    u32_from_be_bytes (n / 2 ^ 24 % 256) (n / 2 ^ 16 % 256) (n / 2 ^ 8 % 256) (n % 256)
      = n := by
  simp only [u32_from_be_bytes]
  omega

theorem u64_from_be_bytes_round (n : Nat) (h : n < 2 ^ 64) :
    u64_from_be_bytes (n / 2 ^ 56 % 256) (n / 2 ^ 48 % 256) (n / 2 ^ 40 % 256)
      (n / 2 ^ 32 % 256) (n / 2 ^ 24 % 256) (n / 2 ^ 16 % 256) (n / 2 ^ 8 % 256)
      (n % 256) = n := by
  simp only [u64_from_be_bytes]
  omega

/-! ## Claim theorems -/

/-- Claim C6: every binary frame shorter than 8 bytes decodes to `Ok` with no
event emitted and no error raised. -/
theorem short_frame_no_event (data : List Nat) (h : data.length < 8) :
    process_tick_data data = .ok none := by
  simp [process_tick_data, h]

/-- Witness for C6 at the concrete 3-byte frame `[0, 1, 2]`. -/
theorem short_frame_no_event_witness :
    ([0, 1, 2] : List Nat).length < 8 ∧ process_tick_data [0, 1, 2] = .ok none :=
  ⟨by decide, short_frame_no_event [0, 1, 2] (by decide)⟩

/-- Claim C5: the tick decoder reads the big-endian fixed layout.  (1)
Encoding `(instrument_id, price_bits, volume)` into the 16-byte layout and
decoding reproduces all three fields (the price is carried as its 32-bit
float pattern, so bit-exact round-tripping is precision-preserving, and the
source's `f32 → f64` widening is value-exact).  (2) An 8-byte frame (no
volume bytes) decodes with volume 0.  (3) Decoding
`[0,0,1,0, 0x42,0xC8,0,0]` yields instrument id 256, volume 0, and price
bits `0x42C80000`, whose IEEE-754 value is exactly 100. -/
theorem tick_decoder_layout :
    (∀ instrument_id price_bits volume : Nat,
        instrument_id < 2 ^ 32 → price_bits < 2 ^ 32 → volume < 2 ^ 64 →
        process_tick_data (encode_tick instrument_id price_bits volume) =
          .ok (some { instrument_token := instrument_id,
                      last_price_bits := price_bits, volume := volume }))
  ∧ (∀ instrument_id price_bits : Nat,
        instrument_id < 2 ^ 32 → price_bits < 2 ^ 32 →
        process_tick_data (encode_tick8 instrument_id price_bits) =
          .ok (some { instrument_token := instrument_id,
                      last_price_bits := price_bits, volume := 0 }))
  ∧ process_tick_data [0, 0, 1, 0, 0x42, 0xC8, 0, 0] =
      .ok (some { instrument_token := 256, last_price_bits := 0x42C80000, volume := 0 })
  ∧ f32Val 0x42C80000 = 100 := by
  refine ⟨?_, ?_, ?_, ?_⟩
  · intro instrument_id price_bits volume hid hpb hv
    simp only [process_tick_data, encode_tick, List.length_cons, List.length_nil,
      List.getD_cons_zero, List.getD_cons_succ]
    norm_num
    constructor
    · simpa using u32_from_be_bytes_round instrument_id hid
    constructor
    · simpa using u32_from_be_bytes_round price_bits hpb
    · simpa using u64_from_be_bytes_round volume hv
  · intro instrument_id price_bits hid hpb
    simp only [process_tick_data, encode_tick8, List.length_cons, List.length_nil,
      List.getD_cons_zero, List.getD_cons_succ]
    norm_num
    constructor
    · simpa using u32_from_be_bytes_round instrument_id hid
    · simpa using u32_from_be_bytes_round price_bits hpb
  · rfl
  · norm_num [f32Val]

/-- Witness for C5 at `instrument_id = 256`, price bits `0x42C80000`
(100.0f32) and volume 5. -/
theorem tick_decoder_layout_witness :
    (256 : Nat) < 2 ^ 32 ∧ (0x42C80000 : Nat) < 2 ^ 32 ∧ (5 : Nat) < 2 ^ 64 ∧
    process_tick_data (encode_tick 256 0x42C80000 5) =
      .ok (some { instrument_token := 256, last_price_bits := 0x42C80000, volume := 5 }) :=
  ⟨by decide, by decide, by decide,
    tick_decoder_layout.1 256 0x42C80000 5 (by decide) (by decide) (by decide)⟩

theorem handle_subscribe_nodup_aux (instrument_tokens : List Nat) :
    ∀ acc : List Nat, acc.Nodup →
      (instrument_tokens.foldl
        (fun tokens token => if token ∈ tokens then tokens else tokens ++ [token])
        acc).Nodup := by
  induction instrument_tokens with
  | nil => intro acc h; simpa using h
  | cons t ts ih =>
    intro acc h
    rw [List.foldl_cons]
    by_cases ht : t ∈ acc
    · simpa [ht] using ih acc h
    · refine ih _ ?_
      simp only [ht, if_false]
      simp [List.nodup_append, h, ht]

/-- Claim C7: subscription operations are idempotent on the Subscription Set.
Subscribing to tokens all already present leaves the vector unchanged;
`handle_subscribe` never introduces duplicates; unsubscribing tokens none of
which are present is a no-op. -/
theorem subscription_idempotent :
    (∀ subscribed instrument_tokens : List Nat,
        (∀ t ∈ instrument_tokens, t ∈ subscribed) →
        handle_subscribe subscribed instrument_tokens = subscribed)
  ∧ (∀ subscribed instrument_tokens : List Nat, subscribed.Nodup →
        (handle_subscribe subscribed instrument_tokens).Nodup)
  ∧ (∀ subscribed instrument_tokens : List Nat,
        (∀ t ∈ instrument_tokens, t ∉ subscribed) →
        handle_unsubscribe subscribed instrument_tokens = subscribed) := by
  refine ⟨?_, ?_, ?_⟩
  · intro subscribed ts h
    induction ts with
    | nil => rfl
    | cons t ts ih =>
      have ht : t ∈ subscribed := h t (by simp)
      show List.foldl _ subscribed (t :: ts) = subscribed
      rw [List.foldl_cons]
      simp only [ht, if_true]
      exact ih fun x hx => h x (by simp [hx])
  · intro subscribed ts h
    exact handle_subscribe_nodup_aux ts subscribed h
  · intro subscribed ts h
    refine List.filter_eq_self.mpr ?_
    intro a ha
    simpa using fun hmem => (h a hmem) ha

/-- Witness for C7: subscribing `[1, 2]` when `[1, 2, 3]` is already
subscribed, and unsubscribing `[9]` from `[1, 2, 3]`, both leave the set
unchanged; the result of subscribing keeps `Nodup`. -/
theorem subscription_idempotent_witness :
    (∀ t ∈ ([1, 2] : List Nat), t ∈ ([1, 2, 3] : List Nat)) ∧
    handle_subscribe [1, 2, 3] [1, 2] = [1, 2, 3] ∧
    handle_unsubscribe [1, 2, 3] [9] = [1, 2, 3] ∧
    (handle_subscribe [1, 2, 3] [1, 2]).Nodup :=
  ⟨by decide, subscription_idempotent.1 [1, 2, 3] [1, 2] (by decide),
    subscription_idempotent.2.2 [1, 2, 3] [9] (by decide),
    subscription_idempotent.2.1 [1, 2, 3] [1, 2] (by decide)⟩

/-- Claim C9: the log store is capacity-bounded with batch trimming.  From a
log vector of length ≤ 10000, `add_log` keeps the length ≤ 10000; when the
vector is full (length ≥ 10000) the 1000 oldest entries are removed as one
batch before the new entry is appended; otherwise the entry is simply
appended; surviving entries keep their relative order (the list without its
new last element is a sublist of the original). -/
theorem add_log_bounded :
    (∀ (logs : List LogEntry) (e : LogEntry), logs.length ≤ 10000 →
        (add_log_list logs e).length ≤ 10000)
  ∧ (∀ (logs : List LogEntry) (e : LogEntry), 10000 ≤ logs.length →
        add_log_list logs e = logs.drop 1000 ++ [e])
  ∧ (∀ (logs : List LogEntry) (e : LogEntry), logs.length < 10000 →
        add_log_list logs e = logs ++ [e])
  ∧ (∀ (logs : List LogEntry) (e : LogEntry),
        List.Sublist (add_log_list logs e).dropLast logs) := by
  refine ⟨?_, ?_, ?_, ?_⟩
  · intro logs e h
    simp only [add_log_list]
    split
    · simp only [List.length_append, List.length_drop, List.length_cons,
        List.length_nil]
      omega
    · simp only [List.length_append, List.length_cons, List.length_nil]
      omega
  · intro logs e h
    simp [add_log_list, h]
  · intro logs e h
    have : ¬ logs.length ≥ 10000 := by omega
    simp [add_log_list, this]
  · intro logs e
    simp only [add_log_list]
    split
    · rw [List.dropLast_concat]
      exact List.drop_sublist 1000 logs
    · rw [List.dropLast_concat]


/-- Counterexample to claim C4 as stated: with base delay `b = 0` (a value
the `u64` config field admits) the un-jittered delay is 0 for every attempt,
so it does not strictly increase over attempts 1..5 — already
`delay(1) = delay(2) = 0`. -/
theorem backoff_not_strict_for_zero_base :
    reconnectDelayMs (cfgWith 0 3) 1 = 0 ∧ reconnectDelayMs (cfgWith 0 3) 2 = 0 ∧
    ¬ reconnectDelayMs (cfgWith 0 3) 1 < reconnectDelayMs (cfgWith 0 3) 2 := by
  decide

/-- Claim C4 (amended): for a base delay `b` with `1 ≤ b < 2^59` (so that the
`u64` product cannot wrap), the un-jittered delay equals `b * 2^min(a,5)` for
every attempt `a`; it strictly increases over attempts 1..5; beyond 5 the
exponent stays capped at 5; the jitter is drawn from `[0, delay/4)`; and for
`b = 1000`, attempt 3, the delay is 8000 ms with jitter bound 2000 ms. -/
theorem backoff_schedule (cfg : Config) (b : Nat)
    (hb : cfg.app.websocket_reconnect_delay_ms = b) (hb1 : 1 ≤ b)
    (hb59 : b < 2 ^ 59) :
    (∀ a : Nat, reconnectDelayMs cfg a = b * 2 ^ min a 5)
  ∧ (∀ a : Nat, 1 ≤ a → a < 5 →
      reconnectDelayMs cfg a < reconnectDelayMs cfg (a + 1))
  ∧ (∀ a : Nat, 5 ≤ a → reconnectDelayMs cfg a = b * 2 ^ 5)
  ∧ (∀ a : Nat, jitterUpperBound cfg a = reconnectDelayMs cfg a / 4)
  ∧ (b = 1000 → reconnectDelayMs cfg 3 = 8000 ∧ jitterUpperBound cfg 3 = 2000) := by
  have hpow : ∀ a : Nat, b * 2 ^ min a 5 < 2 ^ 64 := by
    intro a
    have h32 : (2 : Nat) ^ min a 5 ≤ 2 ^ 5 :=
      Nat.pow_le_pow_right (by norm_num) (Nat.min_le_right a 5)
    calc b * 2 ^ min a 5 ≤ b * 2 ^ 5 := Nat.mul_le_mul_left b h32
      _ < 2 ^ 59 * 2 ^ 5 := by
          exact Nat.mul_lt_mul_of_lt_of_le hb59 (Nat.le_refl _) (by norm_num)
      _ = 2 ^ 64 := by norm_num
  have hdelay : ∀ a : Nat, reconnectDelayMs cfg a = b * 2 ^ min a 5 := by
    intro a
    simp only [reconnectDelayMs, hb]
    exact Nat.mod_eq_of_lt (hpow a)
  refine ⟨hdelay, ?_, ?_, ?_, ?_⟩
  · intro a h1 h5
    rw [hdelay, hdelay]
    have hmin : min a 5 = a := Nat.min_eq_left (by omega)
    have hmin' : min (a + 1) 5 = a + 1 := Nat.min_eq_left (by omega)
    rw [hmin, hmin']
    have : (2 : Nat) ^ a < 2 ^ (a + 1) := Nat.pow_lt_pow_right (by norm_num) (by omega)
    exact Nat.mul_lt_mul_of_le_of_lt (Nat.le_refl b) this hb1
  · intro a h5
    rw [hdelay]
    have : min a 5 = 5 := Nat.min_eq_right h5
    rw [this]
  · intro a
    rfl
  · intro h1000
    subst h1000
    constructor
    · rw [hdelay]; norm_num
    · simp only [jitterUpperBound]
      rw [hdelay]; norm_num

/-- Witness for C4 (amended) at base delay 1000 ms, attempt 3. -/
theorem backoff_schedule_witness :
    (cfgWith 1000 3).app.websocket_reconnect_delay_ms = 1000 ∧ (1 : Nat) ≤ 1000 ∧
    (1000 : Nat) < 2 ^ 59 ∧
    reconnectDelayMs (cfgWith 1000 3) 3 = 8000 ∧
    jitterUpperBound (cfgWith 1000 3) 3 = 2000 :=
  ⟨rfl, by decide, by decide,
    ((backoff_schedule (cfgWith 1000 3) 1000 rfl (by decide) (by decide)).2.2.2.2 rfl).1,
    ((backoff_schedule (cfgWith 1000 3) 1000 rfl (by decide) (by decide)).2.2.2.2 rfl).2⟩

/-- Claim C8: a configured access token equal to the placeholder
`"your_access_token_here"`, or empty, is stored as "absent"
(`WebSocketHandler::new` keeps `None`), and every iteration of the `run`
loop with no token makes no connection attempt: it only sleeps 100 ms and
polls again. -/
theorem placeholder_token_stays_idle :
    (∀ cfg : Config,
        cfg.zerodha.access_token = placeholderToken ∨ cfg.zerodha.access_token = "" →
        (WebSocketHandler.new cfg).access_token = none)
  ∧ (∀ (cfg : Config) (s : WsLoopState) (outcome : ConnectOutcome) (jitter : Nat),
        s.access_token = none →
        run_iteration cfg s outcome jitter = (.next s, [WsAction.sleepMs 100]))
  ∧ (∀ (cfg : Config) (s : WsLoopState) (outcome : ConnectOutcome) (jitter : Nat)
        (tok : String), s.access_token = none →
        WsAction.connectAttempt tok ∉ (run_iteration cfg s outcome jitter).2) := by
  refine ⟨?_, ?_, ?_⟩
  · intro cfg h
    rcases h with h | h <;> simp [WebSocketHandler.new, h]
  · intro cfg s outcome jitter h
    simp [run_iteration, h]
  · intro cfg s outcome jitter tok h
    simp [run_iteration, h]

/-- Witness for C8: the placeholder-token config stores no token, and a
tokenless loop state only sleeps. -/
theorem placeholder_token_stays_idle_witness :
    ((cfgWith 0 0).zerodha.access_token = placeholderToken ∨
      "t" = placeholderToken ∨ True) ∧
    (WebSocketHandler.new
      { zerodha := { api_key := "k", api_secret := "s",
                     access_token := "your_access_token_here" },
        app := { log_level := "info", websocket_reconnect_delay_ms := 1000,
                 max_reconnect_attempts := 3, tick_buffer_size := 1000 } }).access_token
      = none ∧
    run_iteration (cfgWith 1000 3) { access_token := none, reconnect_attempts := 0 }
        .gracefulClose 0 =
      (.next { access_token := none, reconnect_attempts := 0 },
        [WsAction.sleepMs 100]) ∧
    WsAction.connectAttempt "t" ∉
      (run_iteration (cfgWith 1000 3) { access_token := none, reconnect_attempts := 0 }
        .failBeforeConnect 0).2 :=
  ⟨Or.inr (Or.inr trivial),
    placeholder_token_stays_idle.1 _ (Or.inl rfl),
    placeholder_token_stays_idle.2.1 (cfgWith 1000 3) _ .gracefulClose 0 rfl,
    placeholder_token_stays_idle.2.2 (cfgWith 1000 3) _ .failBeforeConnect 0 "t" rfl⟩

/-- Claim C2 concerns a code bug: exceeding `max_reconnect_attempts` does
NOT stop connection attempts.  (1) Every `run`-loop iteration with a token
present initiates a connection attempt, whatever the attempt counter is —
including counters beyond the configured maximum.  (2) Once the incremented
counter exceeds the maximum, `handle_reconnection` emits the fatal error and
returns without sleeping.  (3) After a failed attempt the loop always
continues (`next`), never halts, so the next iteration connects again. -/
theorem reconnect_attempts_unbounded :
    (∀ (cfg : Config) (s : WsLoopState) (tok : String) (outcome : ConnectOutcome)
        (jitter : Nat), s.access_token = some tok →
        WsAction.connectAttempt tok ∈ (run_iteration cfg s outcome jitter).2)
  ∧ (∀ (cfg : Config) (attempts jitter : Nat),
        attempts ≥ cfg.app.max_reconnect_attempts →
        handle_reconnection cfg attempts jitter =
          (attempts + 1, [WsAction.emitError "Max reconnection attempts reached"]))
  ∧ (∀ (cfg : Config) (s : WsLoopState) (tok : String) (jitter : Nat),
        s.access_token = some tok →
        (run_iteration cfg s .failBeforeConnect jitter).1 =
          .next { s with reconnect_attempts := s.reconnect_attempts + 1 }) := by
  refine ⟨?_, ?_, ?_⟩
  · intro cfg s tok outcome jitter h
    cases outcome <;> simp [run_iteration, h]
  · intro cfg attempts jitter h
    have : attempts + 1 > cfg.app.max_reconnect_attempts := by omega
    simp [handle_reconnection, this]
  · intro cfg s tok jitter h
    simp only [run_iteration, h, handle_reconnection]
    split <;> rfl

/-- Witness for C2 at the failing input: `max_reconnect_attempts = 2`, token
present, attempt counter already 3 (> 2), connection keeps failing.  The
iteration still initiates a connection attempt, emits the "max attempts"
error again, and continues the loop with counter 4 — the machine never stops
connecting. -/
theorem reconnect_attempts_unbounded_witness :
    (3 : Nat) > (cfgWith 1000 2).app.max_reconnect_attempts ∧
    ({ access_token := some "t", reconnect_attempts := 3 } : WsLoopState).access_token
      = some "t" ∧
    WsAction.connectAttempt "t" ∈
      (run_iteration (cfgWith 1000 2)
        { access_token := some "t", reconnect_attempts := 3 } .failBeforeConnect 0).2 ∧
    handle_reconnection (cfgWith 1000 2) 3 0 =
      (4, [WsAction.emitError "Max reconnection attempts reached"]) ∧
    (run_iteration (cfgWith 1000 2)
        { access_token := some "t", reconnect_attempts := 3 } .failBeforeConnect 0).1 =
      .next { access_token := some "t", reconnect_attempts := 4 } :=
  ⟨by decide, rfl,
    reconnect_attempts_unbounded.1 (cfgWith 1000 2)
      { access_token := some "t", reconnect_attempts := 3 } "t" .failBeforeConnect 0 rfl,
    reconnect_attempts_unbounded.2.1 (cfgWith 1000 2) 3 0 (by decide),
    reconnect_attempts_unbounded.2.2 (cfgWith 1000 2)
      { access_token := some "t", reconnect_attempts := 3 } "t" 0 rfl⟩


theorem dmLookup_foldl_insert (t : Nat) (ps : List Position) :
    ∀ m : List (Nat × Position),
      dmLookup (ps.foldl (fun m p => dmInsert m p.instrument_token p) m) t =
        ps.foldl (fun acc p => if p.instrument_token = t then some p else acc)
          (dmLookup m t) := by
  induction ps with
  | nil => intro m; rfl
  | cons p ps ih =>
    intro m
    rw [List.foldl_cons, List.foldl_cons, ih]
    congr 1
    by_cases h : p.instrument_token = t
    · rw [if_pos h, ← h]
      exact dmLookup_insert_self m p.instrument_token p
    · rw [if_neg h]
      exact dmLookup_insert_ne m p.instrument_token t p (Ne.symm h)

theorem handle_event_positions_updated (s : AppState) (now : Int) (ps : List Position) :
    (s.handle_event now (.PositionsUpdated ps)).positions =
      ps.foldl (fun m p => dmInsert m p.instrument_token p) [] := by
  simp [AppState.handle_event, AppState.add_log]

theorem handle_event_tick_positions (s : AppState) (now : Int) (tok : Nat) (lp : ℚ)
    (vol : Nat) (ts : Int) :
    (s.handle_event now (.TickUpdate tok lp vol ts)).positions =
      (s.update_position_price tok lp).positions := by
  simp only [AppState.handle_event]
  cases hdt : dmLookup (s.update_position_price tok lp).tick_data tok <;> simp [hdt]

theorem update_last_price_fields (p : Position) (lp : ℚ) :
    (p.update_last_price lp).last_price = lp
  ∧ (p.update_last_price lp).quantity = p.quantity
  ∧ (p.update_last_price lp).average_price = p.average_price
  ∧ (p.update_last_price lp).close_price = p.close_price := by
  simp only [Position.update_last_price, Position.calculate_pnl]
  split <;> simp

theorem update_last_price_pnl_nonzero (p : Position) (lp : ℚ) (h : p.quantity ≠ 0) :
    (p.update_last_price lp).pnl = (lp - p.average_price) * (p.quantity : ℚ)
  ∧ (p.update_last_price lp).unrealized_pnl = (lp - p.close_price) * (p.quantity : ℚ) := by
  simp [Position.update_last_price, Position.calculate_pnl, h]

theorem update_last_price_pnl_zero (p : Position) (lp : ℚ) (h : p.quantity = 0) :
    (p.update_last_price lp).pnl = p.pnl
  ∧ (p.update_last_price lp).unrealized_pnl = p.unrealized_pnl := by
  simp [Position.update_last_price, Position.calculate_pnl, h]

/-- Counterexample to claim C1 as stated: a zero-quantity position reachable
through the system's own events (a `PositionsUpdated` carrying a closed
position whose broker-reported `unrealized_pnl` is 50, exactly as
`get_positions` builds it via `calculate_pnl`) violates the invariant after
a `TickUpdate`: the stored `unrealized_pnl` stays 50, while
`(last_price - close_price) * quantity = (105 - 95) * 0 = 0`. -/
theorem tick_pnl_invariant_fails_for_zero_quantity :
    let p0 : Position :=
      { instrument_token := 1, tradingsymbol := "X", exchange := "NSE", product := "MIS",
        quantity := 0, average_price := 100, last_price := 100, close_price := 95,
        pnl := 0, unrealized_pnl := 50, realized_pnl := 0, multiplier := 1,
        overnight_quantity := 0, day_quantity := 0 }
    let s0 : AppState :=
      { positions := [], orders := [], instruments := [], user_profile := none,
        tick_data := [], logs := [], metrics := PerformanceMetrics.default }
    let s1 := s0.handle_event 0 (.PositionsUpdated [Position.calculate_pnl p0])
    let s2 := s1.handle_event 0 (.TickUpdate 1 105 0 0)
    (dmLookup s2.positions 1).map (fun q => q.unrealized_pnl) = some 50 ∧
    (dmLookup s2.positions 1).map (fun q => q.last_price) = some 105 ∧
    (dmLookup s2.positions 1).map (fun q => q.close_price) = some 95 ∧
    (dmLookup s2.positions 1).map (fun q => q.quantity) = some 0 ∧
    ((105 : ℚ) - 95) * ((0 : Int) : ℚ) = 0 ∧ (50 : ℚ) ≠ 0 := by
  refine ⟨by decide, by decide, by decide, by decide, by norm_num, by norm_num⟩

/-- Claim C1 (amended): after a `TickUpdate` for a token with a stored
position `p`, the stored position becomes `p.update_last_price lp`: its
`last_price` is the tick price and `quantity`, `average_price` and
`close_price` are unchanged; when `quantity ≠ 0` it satisfies
`pnl = (last_price - average_price) * quantity` and
`unrealized_pnl = (last_price - close_price) * quantity` exactly; when
`quantity = 0` its `pnl` and `unrealized_pnl` are left at their previous
values (the source recomputes them only for non-zero quantities). -/
theorem tick_pnl_invariant (s : AppState) (now ts : Int) (tok : Nat) (lp : ℚ)
    (vol : Nat) (p : Position) (hp : dmLookup s.positions tok = some p) :
    dmLookup ((s.handle_event now (.TickUpdate tok lp vol ts)).positions) tok =
      some (p.update_last_price lp)
  ∧ (p.update_last_price lp).last_price = lp
  ∧ (p.update_last_price lp).quantity = p.quantity
  ∧ (p.update_last_price lp).average_price = p.average_price
  ∧ (p.update_last_price lp).close_price = p.close_price
  ∧ (p.quantity ≠ 0 →
      (p.update_last_price lp).pnl = (lp - p.average_price) * (p.quantity : ℚ)
      ∧ (p.update_last_price lp).unrealized_pnl = (lp - p.close_price) * (p.quantity : ℚ))
  ∧ (p.quantity = 0 →
      (p.update_last_price lp).pnl = p.pnl
      ∧ (p.update_last_price lp).unrealized_pnl = p.unrealized_pnl) := by
  refine ⟨?_, (update_last_price_fields p lp).1, (update_last_price_fields p lp).2.1,
    (update_last_price_fields p lp).2.2.1, (update_last_price_fields p lp).2.2.2,
    update_last_price_pnl_nonzero p lp, update_last_price_pnl_zero p lp⟩
  rw [handle_event_tick_positions]
  simp only [AppState.update_position_price, hp]
  exact dmLookup_insert_self s.positions tok (p.update_last_price lp)

/-- Witness for C1 (amended) on a concrete one-position state. -/
theorem tick_pnl_invariant_witness :
    let p0 : Position :=
      { instrument_token := 1, tradingsymbol := "X", exchange := "NSE", product := "MIS",
        quantity := 10, average_price := 100, last_price := 100, close_price := 95,
        pnl := 0, unrealized_pnl := 50, realized_pnl := 0, multiplier := 1,
        overnight_quantity := 0, day_quantity := 0 }
    let s0 : AppState :=
      { positions := [(1, p0)], orders := [], instruments := [], user_profile := none,
        tick_data := [], logs := [], metrics := PerformanceMetrics.default }
    dmLookup s0.positions 1 = some p0 ∧
    dmLookup ((s0.handle_event 0 (.TickUpdate 1 105 0 0)).positions) 1 =
      some (p0.update_last_price 105) :=
  ⟨by decide, (tick_pnl_invariant _ 0 0 1 105 0 _ (by decide)).1⟩

theorem calculate_pnl_fields (p : Position) :
    (p.calculate_pnl).instrument_token = p.instrument_token
  ∧ (p.calculate_pnl).quantity = p.quantity
  ∧ (p.calculate_pnl).average_price = p.average_price
  ∧ (p.calculate_pnl).close_price = p.close_price
  ∧ (p.calculate_pnl).last_price = p.last_price := by
  simp only [Position.calculate_pnl]
  split <;> simp

/-- Claim C3: a `PositionsUpdated` event replaces the position map wholesale —
for every prior state the lookup of any token afterwards is exactly the (last)
position carried by the event for that token, independent of the prior map.
Scenario: a `PositionsUpdated` with one position with quantity 10, average
price 100, last price 100, close price 95 (its derived P&L computed by
`calculate_pnl`, as the producer in `zerodha_client.rs` does) stores
`pnl = 0` and `unrealized_pnl = 50`; a subsequent `TickUpdate` at price 105
for that instrument yields `pnl = 50` and `unrealized_pnl = 100`. -/
theorem positions_replaced_wholesale :
    (∀ (s : AppState) (now : Int) (ps : List Position) (t : Nat),
        dmLookup ((s.handle_event now (.PositionsUpdated ps)).positions) t =
          lastPositionWithToken ps t)
  ∧ (∀ (s : AppState) (now1 now2 ts : Int) (t : Nat) (vol : Nat) (p : Position),
        p.instrument_token = t → p.quantity = 10 → p.average_price = 100 →
        p.last_price = 100 → p.close_price = 95 →
        let s1 := s.handle_event now1 (.PositionsUpdated [p.calculate_pnl])
        let s2 := s1.handle_event now2 (.TickUpdate t 105 vol ts)
        ((dmLookup s1.positions t).map Position.pnl = some 0)
        ∧ ((dmLookup s1.positions t).map Position.unrealized_pnl = some 50)
        ∧ ((dmLookup s2.positions t).map Position.pnl = some 50)
        ∧ ((dmLookup s2.positions t).map Position.unrealized_pnl = some 100)) := by
  have hwholesale : ∀ (s : AppState) (now : Int) (ps : List Position) (t : Nat),
      dmLookup ((s.handle_event now (.PositionsUpdated ps)).positions) t =
        lastPositionWithToken ps t := by
    intro s now ps t
    rw [handle_event_positions_updated, dmLookup_foldl_insert]
    rfl
  refine ⟨hwholesale, ?_⟩
  intro s now1 now2 ts t vol p h1 h2 h3 h4 h5
  have hqne : p.quantity ≠ 0 := by rw [h2]; norm_num
  have hqtok : (p.calculate_pnl).instrument_token = t := by
    rw [(calculate_pnl_fields p).1, h1]
  have hs1 : dmLookup ((s.handle_event now1
      (.PositionsUpdated [p.calculate_pnl])).positions) t = some p.calculate_pnl := by
    rw [hwholesale]
    simp [lastPositionWithToken, hqtok]
  have hq_pnl : (p.calculate_pnl).pnl = 0 := by
    simp only [Position.calculate_pnl, hqne, if_pos, ne_eq, not_false_iff, if_true]
    rw [h3, h4, h2]
    norm_num
  have hq_unreal : (p.calculate_pnl).unrealized_pnl = 50 := by
    simp only [Position.calculate_pnl, hqne, ne_eq, not_false_iff, if_true]
    rw [h4, h5, h2]
    norm_num
  have hq2ne : (p.calculate_pnl).quantity ≠ 0 := by
    rw [(calculate_pnl_fields p).2.1]; exact hqne
  have hs2 : dmLookup (((s.handle_event now1 (.PositionsUpdated [p.calculate_pnl])).handle_event
      now2 (.TickUpdate t 105 vol ts)).positions) t =
      some ((p.calculate_pnl).update_last_price 105) := by
    rw [handle_event_tick_positions]
    simp only [AppState.update_position_price, hs1]
    exact dmLookup_insert_self _ _ _
  have hpnl2 := update_last_price_pnl_nonzero (p.calculate_pnl) 105 hq2ne
  refine ⟨?_, ?_, ?_, ?_⟩
  · rw [hs1]; simp [hq_pnl]
  · rw [hs1]; simp [hq_unreal]
  · rw [hs2]
    simp only [Option.map_some']
    rw [hpnl2.1, (calculate_pnl_fields p).2.2.1, (calculate_pnl_fields p).2.1, h3, h2]
    norm_num
  · rw [hs2]
    simp only [Option.map_some']
    rw [hpnl2.2, (calculate_pnl_fields p).2.2.2.1, (calculate_pnl_fields p).2.1, h5, h2]
    norm_num

/-- Witness for C3 on a concrete state and position. -/
theorem positions_replaced_wholesale_witness :
    let p0 : Position :=
      { instrument_token := 7, tradingsymbol := "X", exchange := "NSE", product := "MIS",
        quantity := 10, average_price := 100, last_price := 100, close_price := 95,
        pnl := 0, unrealized_pnl := 0, realized_pnl := 0, multiplier := 1,
        overnight_quantity := 0, day_quantity := 0 }
    let s0 : AppState :=
      { positions := [(3, p0)], orders := [], instruments := [], user_profile := none,
        tick_data := [], logs := [], metrics := PerformanceMetrics.default }
    dmLookup ((s0.handle_event 0 (.PositionsUpdated [p0.calculate_pnl])).positions) 3 =
      lastPositionWithToken [p0.calculate_pnl] 3 ∧
    ((dmLookup ((s0.handle_event 0 (.PositionsUpdated [p0.calculate_pnl])).positions) 7).map
        Position.pnl = some 0) ∧
    ((dmLookup (((s0.handle_event 0 (.PositionsUpdated [p0.calculate_pnl])).handle_event 0
        (.TickUpdate 7 105 0 0)).positions) 7).map Position.pnl = some 50) := by
  refine ⟨positions_replaced_wholesale.1 _ 0 _ 3, ?_, ?_⟩
  · exact (positions_replaced_wholesale.2 _ 0 0 0 7 0 _ rfl rfl rfl rfl rfl).1
  · exact (positions_replaced_wholesale.2 _ 0 0 0 7 0 _ rfl rfl rfl rfl rfl).2.2.1

theorem update_position_price_no_position (s : AppState) (tok : Nat) (lp : ℚ)
    (h : dmLookup s.positions tok = none) : s.update_position_price tok lp = s := by
  simp [AppState.update_position_price, h]

/-- Claim C10: applying a `TickUpdate` to an instrument with an existing tick
entry and no stored position mutates only that entry's `last_price`,
`volume` and `timestamp_nanos` (all other fields — `last_quantity`,
`average_price`, `buy_quantity`, `sell_quantity`, OHLC — keep their values),
leaves the positions map and logs entirely unchanged, leaves other tick
entries unchanged, and increments the ticks-processed metric by exactly 1;
a first tick creates the entry with open = high = low = close =
average_price = the tick price and zero quantities. -/
theorem tick_update_frame :
    (∀ (s : AppState) (now ts : Int) (tok : Nat) (lp : ℚ) (vol : Nat) (td : TickData),
        dmLookup s.tick_data tok = some td →
        dmLookup s.positions tok = none →
        dmLookup ((s.handle_event now (.TickUpdate tok lp vol ts)).tick_data) tok =
          some { td with last_price := lp, volume := vol, timestamp_nanos := ts }
        ∧ (s.handle_event now (.TickUpdate tok lp vol ts)).positions = s.positions
        ∧ (s.handle_event now (.TickUpdate tok lp vol ts)).metrics.ticks_processed =
            s.metrics.ticks_processed + 1
        ∧ (s.handle_event now (.TickUpdate tok lp vol ts)).logs = s.logs
        ∧ (∀ t', t' ≠ tok →
            dmLookup ((s.handle_event now (.TickUpdate tok lp vol ts)).tick_data) t' =
              dmLookup s.tick_data t'))
  ∧ (∀ (s : AppState) (now ts : Int) (tok : Nat) (lp : ℚ) (vol : Nat),
        dmLookup s.tick_data tok = none →
        dmLookup s.positions tok = none →
        dmLookup ((s.handle_event now (.TickUpdate tok lp vol ts)).tick_data) tok =
          some { instrument_token := tok, last_price := lp, last_quantity := 0,
                 average_price := lp, volume := vol, buy_quantity := 0,
                 sell_quantity := 0,
                 ohlc := { open_px := lp, high := lp, low := lp, close := lp },
                 timestamp_nanos := ts }) := by
  constructor
  · intro s now ts tok lp vol td htd hpos
    have hupp := update_position_price_no_position s tok lp hpos
    simp only [AppState.handle_event, hupp, htd]
    refine ⟨dmLookup_insert_self _ _ _, ?_, ?_, ?_, ?_⟩
    · trivial
    · trivial
    · trivial
    · intro t' ht'
      exact dmLookup_insert_ne _ _ _ _ ht'
  · intro s now ts tok lp vol htd hpos
    have hupp := update_position_price_no_position s tok lp hpos
    simp only [AppState.handle_event, hupp, htd]
    exact dmLookup_insert_self _ _ _


/-- Witness for C10 on a concrete state with one existing tick entry for
token 1, one for token 2, and no positions. -/
theorem tick_update_frame_witness :
    dmLookup stateFixture.tick_data 1 = some tdFixture ∧
    dmLookup stateFixture.positions 1 = none ∧
    dmLookup ((stateFixture.handle_event 0 (.TickUpdate 1 105 42 7)).tick_data) 1 =
      some { tdFixture with last_price := 105, volume := 42, timestamp_nanos := 7 } ∧
    (stateFixture.handle_event 0 (.TickUpdate 1 105 42 7)).positions =
      stateFixture.positions ∧
    dmLookup stateFixture.tick_data 2 = none ∧
    dmLookup ((stateFixture.handle_event 0 (.TickUpdate 2 50 8 9)).tick_data) 2 =
      some { instrument_token := 2, last_price := 50, last_quantity := 0,
             average_price := 50, volume := 8, buy_quantity := 0, sell_quantity := 0,
             ohlc := { open_px := 50, high := 50, low := 50, close := 50 },
             timestamp_nanos := 9 } := by
  refine ⟨by decide, by decide, ?_, ?_, by decide, ?_⟩
  · exact (tick_update_frame.1 stateFixture 0 7 1 105 42 tdFixture
      (by decide) (by decide)).1
  · exact (tick_update_frame.1 stateFixture 0 7 1 105 42 tdFixture
      (by decide) (by decide)).2.1
  · exact tick_update_frame.2 stateFixture 0 9 2 50 8 (by decide) (by decide)

/-- Witness for C9: a full log (10000 entries) is trimmed by 1000 and the
new entry appended; a short log is appended to directly. -/
theorem add_log_bounded_witness :
    (List.replicate 10000 (LogEntry.new 0 .Info "m" none)).length ≤ 10000 ∧
    10000 ≤ (List.replicate 10000 (LogEntry.new 0 .Info "m" none)).length ∧
    (add_log_list (List.replicate 10000 (LogEntry.new 0 .Info "m" none))
        (LogEntry.new 1 .Info "n" none)).length ≤ 10000 ∧
    add_log_list (List.replicate 10000 (LogEntry.new 0 .Info "m" none))
        (LogEntry.new 1 .Info "n" none) =
      (List.replicate 10000 (LogEntry.new 0 .Info "m" none)).drop 1000 ++
        [LogEntry.new 1 .Info "n" none] ∧
    add_log_list [] (LogEntry.new 1 .Info "n" none) = [LogEntry.new 1 .Info "n" none] :=
  ⟨by rw [List.length_replicate], by rw [List.length_replicate],
    add_log_bounded.1 _ _ (by rw [List.length_replicate]),
    add_log_bounded.2.1 _ _ (by rw [List.length_replicate]),
    add_log_bounded.2.2.1 [] _ (by norm_num)⟩
